import Mathlib

/-!
Shallow embedding of the client-side state updates of the Chat-app front end
(React/TypeScript).  Each definition models one handler or callback from the
source tree; stateful handlers become pure functions from the previous state
(and, where relevant, the network outcome) to the next state.  JavaScript
peculiarities that matter are modelled explicitly: `a || b` on strings treats
only the empty string as falsy, and `Array.prototype.slice(-n)` keeps the last
`min n length` elements.
-/

namespace ChatApp

/-- JS string truthiness fallback: `a || b` evaluates to `b` exactly when `a`
is the empty string. -/
def jsOr (a b : String) : String := if a = "" then b else a

/-- The generic user-facing failure string used across the client. -/
def networkErrorMsg : String := "Network error. Please try again."

/-- JS `s.trim()`: the string with leading and trailing whitespace removed
(structurally, so that concrete instances reduce). -/
def jsTrim (s : String) : String :=
  ⟨((s.data.dropWhile Char.isWhitespace).reverse.dropWhile Char.isWhitespace).reverse⟩

/-- JS `arr.slice (-n)` for `n > 0`: the last `min n arr.length` elements. -/
def sliceLast (n : Nat) (l : List α) : List α := l.drop (l.length - n)

/-- Outcome of a `fetch` call as the client code observes it:
`ok success message` = the promise resolved with `response.ok` and a parsed
body carrying a `success` flag and an optional `message` field;
`httpError message` = resolved with `response.ok` false (body message given);
`netError errMessage` = the promise rejected, `errMessage` being the caught
error's `.message`. -/
inductive FetchResult where
  | ok (success : Bool) (message : Option String)
  | httpError (message : Option String)
  | netError (errMessage : String)
deriving DecidableEq, Repr

end ChatApp

namespace ChatApp.ChatRoom

/-- `Message` record of `client/src/components/ChatRoom.tsx`. -/
structure Message where
  username : String
  message : String
  timestamp : String
deriving DecidableEq, Repr

/-- `MAX_MESSAGES` constant of `ChatRoom.tsx`. -/
def MAX_MESSAGES : Nat := 100

/-- The `message_history` socket handler of `ChatRoom.tsx`:
`setMessages(prev => [...prev, ...data.messages].slice(-MAX_MESSAGES))`. -/
def onMessageHistory (prev batch : List Message) : List Message :=
  ChatApp.sliceLast MAX_MESSAGES (prev ++ batch)

/-- The `new_message` socket handler of `ChatRoom.tsx`:
`setMessages(prev => [...prev, data].slice(-MAX_MESSAGES))`. -/
def onNewMessage (prev : List Message) (m : Message) : List Message :=
  ChatApp.sliceLast MAX_MESSAGES (prev ++ [m])

end ChatApp.ChatRoom

namespace ChatApp.ChatCtx

/-- `Friend` record of `frontend/src/contexts/ChatContext.tsx`. -/
structure Friend where
  id : String
  username : String
  profilePic : String
  status : String
deriving DecidableEq, Repr

/-- `Message` record of `frontend/src/contexts/ChatContext.tsx`. -/
structure Message where
  id : String
  senderId : String
  receiverId : String
  content : String
  timestamp : String
deriving DecidableEq, Repr

/-- The chat key chosen by the `message` socket handler of `ChatContext.tsx`:
`message.senderId === user?.id ? message.receiverId : message.senderId`. -/
def chatIdOf (userId : String) (m : Message) : String :=
  if m.senderId = userId then m.receiverId else m.senderId

/-- The `message` socket handler of `ChatContext.tsx`: the record
`messages` (here a total map with `[]` for absent keys) gets `m` appended
under `chatIdOf userId m`; all other keys are untouched. -/
def onMessage (userId : String) (messages : String → List Message) (m : Message) :
    String → List Message :=
  fun chatId =>
    if chatId = chatIdOf userId m then messages chatId ++ [m] else messages chatId

/-- The `friend_status` socket handler of `ChatContext.tsx`:
`prev.map(friend => friend.id === userId ? { ...friend, status } : friend)`. -/
def onFriendStatus (friends : List Friend) (userId status : String) : List Friend :=
  friends.map (fun f => if f.id = userId then { f with status := status } else f)

end ChatApp.ChatCtx

namespace ChatApp.Login

/-- Outcome of the Login `handleSubmit` handler of
`client/src/components/Login.tsx`: the error banner finally shown and whether
the `/api/login` request was issued. -/
structure Outcome where
  error : Option String
  requested : Bool
deriving DecidableEq, Repr

/-- `handleSubmit` of `Login.tsx` as a function of the two form fields and
the fetch outcome (irrelevant when validation blocks the submit): empty-trim
fields block with an error before the request; a non-ok response throws
`errorData.message || 'Login failed'` and the catch then shows
`err.message || 'Network error. Please try again.'`; a rejected fetch shows
the caught message with the same fallback. -/
def handleSubmit (username password : String) (r : ChatApp.FetchResult) : Outcome :=
  if jsTrim username = "" ∨ jsTrim password = "" then
    { error := some "Username and password are required", requested := false }
  else
    match r with
    | .ok true _ => { error := none, requested := true }
    | .ok false msg =>
        { error := some (ChatApp.jsOr (msg.getD "") "Login failed"), requested := true }
    | .httpError msg =>
        { error := some (ChatApp.jsOr (ChatApp.jsOr (msg.getD "") "Login failed")
            ChatApp.networkErrorMsg), requested := true }
    | .netError e =>
        { error := some (ChatApp.jsOr e ChatApp.networkErrorMsg), requested := true }

end ChatApp.Login

namespace ChatApp.Register

/-- Outcome of the Register `handleSubmit` handler of
`client/src/components/Register.tsx`. -/
structure Outcome where
  error : Option String
  requested : Bool
deriving DecidableEq, Repr

/-- `handleSubmit` of `Register.tsx`: empty-trim check, password match,
username length and password length run in that order before the request;
error surfacing on responses mirrors `Login.handleSubmit` with the
`Registration failed` fallback. -/
def handleSubmit (username password confirmPassword : String)
    (r : ChatApp.FetchResult) : Outcome :=
  if jsTrim username = "" ∨ jsTrim password = "" ∨ jsTrim confirmPassword = "" then
    { error := some "All fields are required", requested := false }
  else if password ≠ confirmPassword then
    { error := some "Passwords do not match", requested := false }
  else if username.length < 3 then
    { error := some "Username must be at least 3 characters", requested := false }
  else if password.length < 6 then
    { error := some "Password must be at least 6 characters", requested := false }
  else
    match r with
    | .ok true _ => { error := none, requested := true }
    | .ok false msg =>
        { error := some (jsOr (msg.getD "") "Registration failed"), requested := true }
    | .httpError msg =>
        { error := some (jsOr (jsOr (msg.getD "") "Registration failed") networkErrorMsg),
          requested := true }
    | .netError e =>
        { error := some (jsOr e networkErrorMsg), requested := true }

end ChatApp.Register

namespace ChatApp.FriendsList

/-- `Friend` record of `src/components/FriendsList.tsx`. -/
structure Friend where
  username : String
  online : Bool
  bio : String
  avatar : String
deriving DecidableEq, Repr

/-- Outcome of an add-friend interaction before any network response is
processed: banners set by the handler, the (unchanged) list state, and the
username in the body of the `POST /api/friends` request when one is issued. -/
structure AddOutcome where
  error : Option String
  success : Option String
  friends : List Friend
  request : Option String
deriving DecidableEq, Repr

/-- `handleAddFriend` of `FriendsList.tsx` (the unnamed variant of the
component has the identical handler): the empty, self and duplicate checks
run in this order, each returning before the POST is issued. -/
def handleAddFriend (username : String) (friends : List Friend)
    (newFriend : String) : AddOutcome :=
  if jsTrim newFriend = "" then
    { error := some "Please enter a username", success := none,
      friends := friends, request := none }
  else if newFriend = username then
    { error := some "You can\x27t add yourself as a friend", success := none,
      friends := friends, request := none }
  else if friends.any (fun f => f.username == newFriend) then
    { error := some "This user is already your friend", success := none,
      friends := friends, request := none }
  else
    { error := none, success := none, friends := friends, request := some newFriend }

/-- `handleAddSuggestedFriend` of `FriendsList.tsx`: issues the POST with no
local validation of any kind (the friends state is never consulted). -/
def handleAddSuggestedFriend (friendUsername : String) : AddOutcome :=
  { error := none, success := none, friends := [], request := some friendUsername }

/-- Outcome of `handleRemoveFriend` after the network response. -/
structure RemoveOutcome where
  friends : List Friend
  error : Option String
  success : Option String
deriving DecidableEq, Repr

/-- `handleRemoveFriend` of `FriendsList.tsx` (identical list behaviour in
the unnamed variant), given the `DELETE /api/friends` outcome after the user
confirmed: a success body filters the removed username out locally; a
non-success body sets its message; a non-ok response or rejected fetch is
caught and sets the generic string; in the latter two cases the list is
unchanged. -/
def handleRemoveFriend (friends : List Friend) (friendUsername : String)
    (r : ChatApp.FetchResult) : RemoveOutcome :=
  match r with
  | .ok true _ =>
      { friends := friends.filter (fun f => f.username != friendUsername),
        error := none, success := some (friendUsername ++ " removed from friends") }
  | .ok false msg =>
      { friends := friends,
        error := some (jsOr (msg.getD "") "Failed to remove friend"), success := none }
  | .httpError _ =>
      { friends := friends, error := some networkErrorMsg, success := none }
  | .netError _ =>
      { friends := friends, error := some networkErrorMsg, success := none }

/-- `fetchFriends` of `FriendsList.tsx`, given the `GET /api/friends` outcome
(with the `friends` payload of a success body): a non-success body surfaces
`data.message || 'Failed to load friends'`; a non-ok response or rejected
fetch is caught and surfaces the generic string, the list unchanged. -/
def fetchFriends (friends : List Friend) (r : ChatApp.FetchResult)
    (payload : List Friend) : List Friend × Option String :=
  match r with
  | .ok true _ => (payload, none)
  | .ok false msg => (friends, some (jsOr (msg.getD "") "Failed to load friends"))
  | .httpError _ => (friends, some networkErrorMsg)
  | .netError _ => (friends, some networkErrorMsg)

end ChatApp.FriendsList

namespace ChatApp.Profile

/-- The error banner set by `handleSubmit` of `src/components/Profile.tsx`
for each `PUT /api/profile` outcome: a non-success body surfaces its message
with a fallback; the catch branch (non-ok response or rejected fetch) always
shows the generic string. -/
def submitError (r : ChatApp.FetchResult) : Option String :=
  match r with
  | .ok true _ => none
  | .ok false msg => some (jsOr (msg.getD "") "Failed to update profile")
  | .httpError _ => some networkErrorMsg
  | .netError _ => some networkErrorMsg

end ChatApp.Profile

namespace ChatApp.ChatCtx

/-- Outcome of an axios call: `ok` = the promise resolved (2xx); `error` =
it rejected, carrying an optional HTTP status and response message. -/
inductive AxiosResult where
  | ok
  | error (status : Option Nat) (message : Option String)
deriving DecidableEq, Repr

/-- `loadFriends` of `ChatContext.tsx`: a successful GET replaces the list
with the response data; a failure is only logged to the console — no
user-facing string and no state change. -/
def loadFriends (friends : List Friend) (r : AxiosResult) (payload : List Friend) :
    List Friend × Option String :=
  match r with
  | .ok => (payload, none)
  | .error _ _ => (friends, none)

/-- State left by `removeFriend` of `ChatContext.tsx`. -/
structure RemoveOutcome where
  friends : List Friend
  currentChat : Option Friend
  thrown : Option String
deriving DecidableEq, Repr

/-- `removeFriend` of `ChatContext.tsx`, given the DELETE outcome: on success
the friend with the given id is filtered out and the current chat cleared
when it pointed at the removed friend; on failure the state is unchanged and
a fixed message is rethrown. -/
def removeFriend (friends : List Friend) (currentChat : Option Friend)
    (userId : String) (r : AxiosResult) : RemoveOutcome :=
  match r with
  | .ok =>
      { friends := friends.filter (fun f => f.id != userId),
        currentChat :=
          match currentChat with
          | some c => if c.id = userId then none else some c
          | none => none,
        thrown := none }
  | .error _ _ =>
      { friends := friends, currentChat := currentChat,
        thrown := some "Failed to remove friend" }

end ChatApp.ChatCtx

namespace ChatApp.NotifCtx

/-- `Notification` record of the unnamed `NotificationContext` source. -/
structure Notification where
  id : String
  type : String
  senderId : Option String
  senderName : Option String
  content : String
  read : Bool
  timestamp : String
deriving DecidableEq, Repr

/-- `loadNotifications` of the unnamed `NotificationProvider`: a successful
GET replaces the list with the response data; a failure is only logged —
nothing is surfaced to the user and the list is unchanged. -/
def loadNotifications (notifs : List Notification) (r : ChatCtx.AxiosResult)
    (payload : List Notification) : List Notification × Option String :=
  match r with
  | .ok => (payload, none)
  | .error _ _ => (notifs, none)

end ChatApp.NotifCtx

namespace ChatApp.Notif

/-- `clearNotifications` of the first unnamed `Notifications` component
variant: a success body empties the list; anything else leaves it unchanged
(failures are only logged to the console). -/
def clearNotifications (notifications : List String) (r : ChatApp.FetchResult) :
    List String :=
  match r with
  | .ok true _ => []
  | .ok false _ => notifications
  | .httpError _ => notifications
  | .netError _ => notifications

/-- `clearNotifications` of the second unnamed `Notifications` variant: the
same list behaviour, with failures additionally setting an error banner (the
generic string from the catch branch). -/
def clearNotificationsV2 (notifications : List String) (r : ChatApp.FetchResult) :
    List String × Option String :=
  match r with
  | .ok true _ => ([], none)
  | .ok false msg =>
      (notifications, some (jsOr (msg.getD "") "Failed to clear notifications"))
  | .httpError _ => (notifications, some networkErrorMsg)
  | .netError _ => (notifications, some networkErrorMsg)

end ChatApp.Notif

namespace ChatApp.App

/-- Parsed outcome of the fetch chain in `App.tsx`s `clearNotifications`
(which performs no `response.ok` check, so only the parsed `success` flag
matters); `failed` covers a rejected fetch or json parse. -/
inductive JsonResult where
  | parsed (success : Bool)
  | failed
deriving DecidableEq, Repr

/-- `clearNotifications` of `client/src/App.tsx`. -/
def clearNotifications (notifications : List String) (r : JsonResult) : List String :=
  match r with
  | .parsed true => []
  | .parsed false => notifications
  | .failed => notifications

end ChatApp.App

namespace ChatApp

open ChatRoom

/-- C1: after every `message_history` and every `new_message` event the
ChatRoom message list has at most `MAX_MESSAGES` (100) entries and consists of
the most recent entries (a suffix of old-state-then-incoming of maximal
length), for every prior state of length at most 100 and every batch. -/
theorem chatroom_messages_capped (prev batch : List ChatRoom.Message)
    (m : ChatRoom.Message) (hprev : prev.length ≤ MAX_MESSAGES) :
    (onMessageHistory prev batch).length ≤ MAX_MESSAGES ∧
    onMessageHistory prev batch <:+ prev ++ batch ∧
    (onMessageHistory prev batch).length = min (prev ++ batch).length MAX_MESSAGES ∧
    (onNewMessage prev m).length ≤ MAX_MESSAGES ∧
    onNewMessage prev m <:+ prev ++ [m] ∧
    (onNewMessage prev m).length = min (prev ++ [m]).length MAX_MESSAGES := by
  unfold onMessageHistory onNewMessage sliceLast
  refine ⟨?_, List.drop_suffix _ _, ?_, ?_, List.drop_suffix _ _, ?_⟩ <;>
    simp [List.length_drop] <;> omega

/-- Witness for `chatroom_messages_capped` at a concrete state and batch. -/
theorem chatroom_messages_capped_witness :
    (onMessageHistory [⟨"alice", "hi", "t0"⟩] [⟨"bob", "yo", "t1"⟩]).length ≤ MAX_MESSAGES ∧
    onMessageHistory [⟨"alice", "hi", "t0"⟩] [⟨"bob", "yo", "t1"⟩] <:+
      [⟨"alice", "hi", "t0"⟩] ++ [⟨"bob", "yo", "t1"⟩] ∧
    (onMessageHistory [⟨"alice", "hi", "t0"⟩] [⟨"bob", "yo", "t1"⟩]).length =
      min ([⟨"alice", "hi", "t0"⟩] ++ [⟨"bob", "yo", "t1"⟩] : List ChatRoom.Message).length
        MAX_MESSAGES ∧
    (onNewMessage [⟨"alice", "hi", "t0"⟩] ⟨"bob", "yo", "t1"⟩).length ≤ MAX_MESSAGES ∧
    onNewMessage [⟨"alice", "hi", "t0"⟩] ⟨"bob", "yo", "t1"⟩ <:+
      [⟨"alice", "hi", "t0"⟩] ++ [⟨"bob", "yo", "t1"⟩] ∧
    (onNewMessage [⟨"alice", "hi", "t0"⟩] ⟨"bob", "yo", "t1"⟩).length =
      min ([⟨"alice", "hi", "t0"⟩] ++ [⟨"bob", "yo", "t1"⟩] : List ChatRoom.Message).length
        MAX_MESSAGES :=
  chatroom_messages_capped [⟨"alice", "hi", "t0"⟩] [⟨"bob", "yo", "t1"⟩]
    ⟨"bob", "yo", "t1"⟩ (by decide)

/-- C5: the client deduplicates nothing: the ChatContext `message` handler
appends the received message to the relevant per-chat list unconditionally
(so two deliveries of the same event leave two copies), and the ChatRoom
`new_message` handler does likewise subject only to the 100-entry truncation
(here: prior length at most 98, so both copies survive). -/
theorem no_client_dedup (userId : String) (messages : String → List ChatCtx.Message)
    (m : ChatCtx.Message) (prev : List ChatRoom.Message) (rm : ChatRoom.Message)
    (hprev : prev.length ≤ 98) :
    ChatCtx.onMessage userId messages m (ChatCtx.chatIdOf userId m)
      = messages (ChatCtx.chatIdOf userId m) ++ [m] ∧
    ChatCtx.onMessage userId (ChatCtx.onMessage userId messages m) m
        (ChatCtx.chatIdOf userId m)
      = messages (ChatCtx.chatIdOf userId m) ++ [m, m] ∧
    onNewMessage (onNewMessage prev rm) rm = prev ++ [rm, rm] := by
  refine ⟨by simp [ChatCtx.onMessage], by simp [ChatCtx.onMessage], ?_⟩
  unfold onNewMessage sliceLast
  have h1 : (prev ++ [rm]).length - MAX_MESSAGES = 0 := by
    simp only [List.length_append, List.length_singleton, MAX_MESSAGES]; omega
  rw [h1, List.drop_zero]
  have h2 : (prev ++ [rm] ++ [rm]).length - MAX_MESSAGES = 0 := by
    simp only [List.length_append, List.length_singleton, MAX_MESSAGES]; omega
  rw [h2, List.drop_zero, List.append_assoc]
  simp

/-- Witness for `no_client_dedup` at concrete messages and states. -/
theorem no_client_dedup_witness :
    ChatCtx.onMessage "me" (fun _ => []) ⟨"m1", "me", "you", "hi", "t"⟩
        (ChatCtx.chatIdOf "me" ⟨"m1", "me", "you", "hi", "t"⟩)
      = (fun _ => ([] : List ChatCtx.Message))
          (ChatCtx.chatIdOf "me" ⟨"m1", "me", "you", "hi", "t"⟩)
        ++ [⟨"m1", "me", "you", "hi", "t"⟩] ∧
    ChatCtx.onMessage "me"
        (ChatCtx.onMessage "me" (fun _ => []) ⟨"m1", "me", "you", "hi", "t"⟩)
        ⟨"m1", "me", "you", "hi", "t"⟩
        (ChatCtx.chatIdOf "me" ⟨"m1", "me", "you", "hi", "t"⟩)
      = (fun _ => ([] : List ChatCtx.Message))
          (ChatCtx.chatIdOf "me" ⟨"m1", "me", "you", "hi", "t"⟩)
        ++ [⟨"m1", "me", "you", "hi", "t"⟩, ⟨"m1", "me", "you", "hi", "t"⟩] ∧
    onNewMessage (onNewMessage [] ⟨"alice", "hi", "t0"⟩) ⟨"alice", "hi", "t0"⟩
      = [] ++ [⟨"alice", "hi", "t0"⟩, ⟨"alice", "hi", "t0"⟩] :=
  no_client_dedup "me" (fun _ => []) ⟨"m1", "me", "you", "hi", "t"⟩ []
    ⟨"alice", "hi", "t0"⟩ (by decide)

/-- C6: the `friend_status` handler changes only the `status` field of
friends whose `id` matches the event: length (and order, positionwise) is
preserved, non-matching entries are untouched, a matching entry keeps its
`id`, `username` and `profilePic`, and when no entry matches the list is
unchanged. -/
theorem friend_status_frame (fs : List ChatCtx.Friend) (userId status : String) :
    (ChatCtx.onFriendStatus fs userId status).length = fs.length ∧
    (∀ (i : Nat) (f : ChatCtx.Friend), fs[i]? = some f → f.id ≠ userId →
      (ChatCtx.onFriendStatus fs userId status)[i]? = some f) ∧
    (∀ (i : Nat) (f : ChatCtx.Friend), fs[i]? = some f → f.id = userId →
      (ChatCtx.onFriendStatus fs userId status)[i]? = some { f with status := status }) ∧
    (∀ (i : Nat) (f g : ChatCtx.Friend), fs[i]? = some f →
      (ChatCtx.onFriendStatus fs userId status)[i]? = some g →
      g.id = f.id ∧ g.username = f.username ∧ g.profilePic = f.profilePic) ∧
    ((∀ f ∈ fs, f.id ≠ userId) → ChatCtx.onFriendStatus fs userId status = fs) := by
  refine ⟨by simp [ChatCtx.onFriendStatus], ?_, ?_, ?_, ?_⟩
  · intro i f hf hne
    simp [ChatCtx.onFriendStatus, List.getElem?_map, hf, hne]
  · intro i f hf hid
    simp [ChatCtx.onFriendStatus, List.getElem?_map, hf, hid]
  · intro i f g hf hg
    simp only [ChatCtx.onFriendStatus, List.getElem?_map, hf, Option.map_some,
      Option.some_inj] at hg
    by_cases h : f.id = userId <;> simp [h] at hg <;> simp [← hg, h]
  · intro hall
    have h1 : fs.map (fun f => if f.id = userId then { f with status := status } else f)
        = fs.map id := List.map_congr_left (fun f hf => by simp [hall f hf])
    simpa [ChatCtx.onFriendStatus] using h1

/-- Witness for `friend_status_frame` at a concrete list and event. -/
theorem friend_status_frame_witness :
    (ChatCtx.onFriendStatus [⟨"u1", "alice", "a.png", "offline"⟩,
        ⟨"u2", "bob", "b.png", "offline"⟩] "u2" "online")[0]?
      = some ⟨"u1", "alice", "a.png", "offline"⟩ ∧
    (ChatCtx.onFriendStatus [⟨"u1", "alice", "a.png", "offline"⟩,
        ⟨"u2", "bob", "b.png", "offline"⟩] "u2" "online")[1]?
      = some ⟨"u2", "bob", "b.png", "online"⟩ ∧
    ChatCtx.onFriendStatus [⟨"u1", "alice", "a.png", "offline"⟩] "zz" "online"
      = [⟨"u1", "alice", "a.png", "offline"⟩] := by
  refine ⟨(friend_status_frame _ "u2" "online").2.1 0 _ (by decide) (by decide), ?_,
    (friend_status_frame [⟨"u1", "alice", "a.png", "offline"⟩] "zz" "online").2.2.2.2
      (by decide)⟩
  have h := (friend_status_frame [⟨"u1", "alice", "a.png", "offline"⟩,
      ⟨"u2", "bob", "b.png", "offline"⟩] "u2" "online").2.2.1 1
    ⟨"u2", "bob", "b.png", "offline"⟩ (by decide) (by decide)
  simpa using h

/-- C4: submitting empty credentials blocks client-side: when username or
password trims to empty, Login sets `Username and password are required` and
issues no request; when any of the three Register fields trims to empty,
Register sets `All fields are required` and issues no request — for every
fetch outcome, which is therefore never consulted. -/
theorem empty_credentials_block (u p c : String) (r : FetchResult) :
    (jsTrim u = "" ∨ jsTrim p = "" →
      Login.handleSubmit u p r =
        { error := some "Username and password are required", requested := false }) ∧
    (jsTrim u = "" ∨ jsTrim p = "" ∨ jsTrim c = "" →
      Register.handleSubmit u p c r =
        { error := some "All fields are required", requested := false }) := by
  constructor
  · intro hl; unfold Login.handleSubmit; rw [if_pos hl]
  · intro hr; unfold Register.handleSubmit; rw [if_pos hr]

/-- Witness for `empty_credentials_block`: Login blocked at a whitespace-only
username, Register blocked when only the confirm-password field trims to
empty. -/
theorem empty_credentials_block_witness :
    Login.handleSubmit " " "pw" (.ok true none) =
      { error := some "Username and password are required", requested := false } ∧
    Register.handleSubmit "alice" "pw" " " (.ok true none) =
      { error := some "All fields are required", requested := false } :=
  ⟨(empty_credentials_block " " "pw" " " (.ok true none)).1 (Or.inl (by decide)),
   (empty_credentials_block "alice" "pw" " " (.ok true none)).2
     (Or.inr (Or.inr (by decide)))⟩

/-- C9: after the empty-field check, Register blocks with `Passwords do not
match`, then `Username must be at least 3 characters`, then `Password must be
at least 6 characters`, in that order of precedence, each returning before
any network request. -/
theorem register_validation_order (u p c : String) (r : FetchResult)
    (h1 : jsTrim u ≠ "") (h2 : jsTrim p ≠ "") (h3 : jsTrim c ≠ "") :
    (p ≠ c → Register.handleSubmit u p c r =
      { error := some "Passwords do not match", requested := false }) ∧
    (p = c → u.length < 3 → Register.handleSubmit u p c r =
      { error := some "Username must be at least 3 characters", requested := false }) ∧
    (p = c → 3 ≤ u.length → p.length < 6 → Register.handleSubmit u p c r =
      { error := some "Password must be at least 6 characters", requested := false }) := by
  have hempty : ¬(jsTrim u = "" ∨ jsTrim p = "" ∨ jsTrim c = "") := by tauto
  refine ⟨fun hpc => ?_, fun hpc hu => ?_, fun hpc hu hp => ?_⟩
  · unfold Register.handleSubmit
    rw [if_neg hempty, if_pos hpc]
  · unfold Register.handleSubmit
    rw [if_neg hempty, if_neg (by simp [hpc]), if_pos hu]
  · unfold Register.handleSubmit
    rw [if_neg hempty, if_neg (by simp [hpc]), if_neg (by omega), if_pos hp]

/-- Witness for `register_validation_order`: the three blocked submissions at
concrete field values. -/
theorem register_validation_order_witness :
    Register.handleSubmit "alice" "secret1" "secret2" (.ok true none) =
      { error := some "Passwords do not match", requested := false } ∧
    Register.handleSubmit "ab" "secret" "secret" (.ok true none) =
      { error := some "Username must be at least 3 characters", requested := false } ∧
    Register.handleSubmit "alice" "abc" "abc" (.ok true none) =
      { error := some "Password must be at least 6 characters", requested := false } :=
  ⟨(register_validation_order "alice" "secret1" "secret2" (.ok true none)
      (by decide) (by decide) (by decide)).1 (by decide),
   (register_validation_order "ab" "secret" "secret" (.ok true none)
      (by decide) (by decide) (by decide)).2.1 rfl (by decide),
   (register_validation_order "alice" "abc" "abc" (.ok true none)
      (by decide) (by decide) (by decide)).2.2 rfl (by decide) (by decide)⟩

/-- C2 counterexample: a non-success login response is surfaced as the thrown
`Login failed` message, not as the generic network-error string, and a failed
ChatContext friends load surfaces nothing to the user at all. -/
theorem error_string_not_uniform_cex :
    (Login.handleSubmit "alice" "secret1" (.httpError none)).error
      = some "Login failed" ∧
    some "Login failed" ≠ some networkErrorMsg ∧
    (ChatCtx.loadFriends [] (.error (some 500) none) []).2 = none := by
  refine ⟨by decide, by decide, rfl⟩

/-- C2 amended: every failure is caught and logged with no retry, but the
surfaced string depends on the call site: the FriendsList, Profile and
error-banner Notifications sites show exactly the generic network-error
string on a non-ok response or rejected fetch; Login shows the caught error
message, falling back to the generic string only when that message is empty
(so a non-success response whose thrown message is nonempty is surfaced
verbatim); the axios context loaders (ChatContext friends,
NotificationProvider) surface nothing and leave their state unchanged. -/
theorem error_surface_by_site (u p e mm : String) (m : Option String)
    (fs pl : List FriendsList.Friend) (nl : List String)
    (cfs cpl : List ChatCtx.Friend) (ns npl : List NotifCtx.Notification)
    (st : Option Nat)
    (hu : jsTrim u ≠ "") (hp : jsTrim p ≠ "") (hmm : mm ≠ "") (he : e ≠ "") :
    FriendsList.fetchFriends fs (.httpError m) pl = (fs, some networkErrorMsg) ∧
    FriendsList.fetchFriends fs (.netError e) pl = (fs, some networkErrorMsg) ∧
    (FriendsList.handleRemoveFriend fs u (.httpError m)).error
      = some networkErrorMsg ∧
    (FriendsList.handleRemoveFriend fs u (.netError e)).error
      = some networkErrorMsg ∧
    Profile.submitError (.httpError m) = some networkErrorMsg ∧
    Profile.submitError (.netError e) = some networkErrorMsg ∧
    (Notif.clearNotificationsV2 nl (.httpError m)).2 = some networkErrorMsg ∧
    (Notif.clearNotificationsV2 nl (.netError e)).2 = some networkErrorMsg ∧
    (Login.handleSubmit u p (.netError e)).error = some e ∧
    (Login.handleSubmit u p (.netError "")).error = some networkErrorMsg ∧
    (Login.handleSubmit u p (.httpError (some mm))).error = some mm ∧
    ChatCtx.loadFriends cfs (.error st m) cpl = (cfs, none) ∧
    NotifCtx.loadNotifications ns (.error st m) npl = (ns, none) := by
  have hcond : ¬(jsTrim u = "" ∨ jsTrim p = "") := by tauto
  refine ⟨rfl, rfl, rfl, rfl, rfl, rfl, rfl, rfl, ?_, ?_, ?_, rfl, rfl⟩ <;>
    simp [Login.handleSubmit, hcond, jsOr, hmm, he]

/-- Witness for `error_surface_by_site`: a rejected login fetch at concrete
inputs surfaces the caught message, not the generic string. -/
theorem error_surface_by_site_witness :
    (Login.handleSubmit "alice" "secret1" (.netError "timeout")).error
      = some "timeout" :=
  (error_surface_by_site "alice" "secret1" "timeout" "Invalid credentials" none
    [] [] [] [] [] [] [] (some 500) (by decide) (by decide) (by decide)
    (by decide)).2.2.2.2.2.2.2.2.1

/-- C3 counterexample: the suggested-friends add path issues the POST even
when the target is already in the friends list — no local rejection, no
error banner. -/
theorem add_suggested_no_duplicate_check_cex :
    ([⟨"bob", true, "", ""⟩] : List FriendsList.Friend).any
        (fun f => f.username == "bob") = true ∧
    (FriendsList.handleAddSuggestedFriend "bob").request = some "bob" ∧
    (FriendsList.handleAddSuggestedFriend "bob").error = none :=
  ⟨by decide, rfl, rfl⟩

/-- C3 amended: the add-friend form handler (both FriendsList variants)
rejects a duplicate locally — a submitted name that is nonempty, differs from
the logged-in user and is already in the list sets `This user is already your
friend` and issues no POST, the list unchanged; the suggested-friend add
path, by contrast, always issues the POST with no local check. -/
theorem duplicate_friend_rejected_on_form (self nf : String)
    (friends : List FriendsList.Friend)
    (h1 : jsTrim nf ≠ "") (h2 : nf ≠ self)
    (h3 : ∃ f ∈ friends, f.username = nf) :
    FriendsList.handleAddFriend self friends nf =
      { error := some "This user is already your friend", success := none,
        friends := friends, request := none } ∧
    ∀ u, (FriendsList.handleAddSuggestedFriend u).request = some u := by
  constructor
  · obtain ⟨f, hf, hfn⟩ := h3
    unfold FriendsList.handleAddFriend
    rw [if_neg h1, if_neg h2,
      if_pos (List.any_eq_true.mpr ⟨f, hf, by simp [hfn]⟩)]
  · intro u; rfl

/-- Witness for `duplicate_friend_rejected_on_form` at a concrete list. -/
theorem duplicate_friend_rejected_on_form_witness :
    FriendsList.handleAddFriend "alice" [⟨"bob", true, "", ""⟩] "bob" =
      { error := some "This user is already your friend", success := none,
        friends := [⟨"bob", true, "", ""⟩], request := none } :=
  (duplicate_friend_rejected_on_form "alice" "bob" [⟨"bob", true, "", ""⟩]
    (by decide) (by decide) ⟨⟨"bob", true, "", ""⟩, by decide, rfl⟩).1

/-- C10: submitting your own username as the friend to add is blocked before
any network call: the POST is never issued and the list is unchanged for
every such input, and whenever the username does not trim to empty (which
holds for every logged-in username) the error shown is the self-add
message. -/
theorem add_self_rejected (u : String) (friends : List FriendsList.Friend) :
    (FriendsList.handleAddFriend u friends u).request = none ∧
    (FriendsList.handleAddFriend u friends u).friends = friends ∧
    (jsTrim u ≠ "" → FriendsList.handleAddFriend u friends u =
      { error := some "You can\x27t add yourself as a friend", success := none,
        friends := friends, request := none }) := by
  unfold FriendsList.handleAddFriend
  by_cases h : jsTrim u = ""
  · rw [if_pos h]; exact ⟨rfl, rfl, fun hc => absurd h hc⟩
  · rw [if_neg h, if_pos rfl]; exact ⟨rfl, rfl, fun _ => rfl⟩

/-- Witness for `add_self_rejected` at a concrete username and list. -/
theorem add_self_rejected_witness :
    FriendsList.handleAddFriend "alice" [⟨"bob", true, "", ""⟩] "alice" =
      { error := some "You can\x27t add yourself as a friend", success := none,
        friends := [⟨"bob", true, "", ""⟩], request := none } :=
  (add_self_rejected "alice" [⟨"bob", true, "", ""⟩]).2.2 (by decide)

/-- C7: removing a friend changes the list only on a success response: the
result is the previous list with every entry of the removed username
(FriendsList) or id (ChatContext) filtered out — an order-preserving sublist
holding exactly the non-matching entries; a non-success or failed response
leaves the list unchanged in both implementations. -/
theorem remove_friend_spec (fs : List FriendsList.Friend) (u : String)
    (m : Option String) (e : String) (cfs : List ChatCtx.Friend)
    (cc : Option ChatCtx.Friend) (uid : String) (st : Option Nat) :
    (FriendsList.handleRemoveFriend fs u (.ok true m)).friends
      = fs.filter (fun f => f.username != u) ∧
    (FriendsList.handleRemoveFriend fs u (.ok true m)).friends.Sublist fs ∧
    (∀ f : FriendsList.Friend,
      f ∈ (FriendsList.handleRemoveFriend fs u (.ok true m)).friends ↔
        f ∈ fs ∧ f.username ≠ u) ∧
    (FriendsList.handleRemoveFriend fs u (.ok false m)).friends = fs ∧
    (FriendsList.handleRemoveFriend fs u (.httpError m)).friends = fs ∧
    (FriendsList.handleRemoveFriend fs u (.netError e)).friends = fs ∧
    (ChatCtx.removeFriend cfs cc uid .ok).friends
      = cfs.filter (fun f => f.id != uid) ∧
    (ChatCtx.removeFriend cfs cc uid .ok).friends.Sublist cfs ∧
    (∀ f : ChatCtx.Friend,
      f ∈ (ChatCtx.removeFriend cfs cc uid .ok).friends ↔ f ∈ cfs ∧ f.id ≠ uid) ∧
    (ChatCtx.removeFriend cfs cc uid (.error st m)).friends = cfs := by
  refine ⟨rfl, List.filter_sublist _, ?_, rfl, rfl, rfl, rfl,
    List.filter_sublist _, ?_, rfl⟩ <;>
    intro f <;>
    simp [FriendsList.handleRemoveFriend, ChatCtx.removeFriend, List.mem_filter]

/-- Witness for `remove_friend_spec`: concrete removal on a two-entry list. -/
theorem remove_friend_spec_witness :
    (FriendsList.handleRemoveFriend
        [⟨"bob", true, "", ""⟩, ⟨"carol", false, "", ""⟩] "bob"
        (.ok true none)).friends
      = ([⟨"bob", true, "", ""⟩, ⟨"carol", false, "", ""⟩] :
          List FriendsList.Friend).filter (fun f => f.username != "bob") :=
  (remove_friend_spec [⟨"bob", true, "", ""⟩, ⟨"carol", false, "", ""⟩] "bob"
    none "" [] none "u1" none).1

/-- C8: clearing notifications empties the displayed list exactly on a
success response, in all three implementations (the two Notifications
component variants and App.tsx); every non-success or failed outcome leaves
the displayed list unchanged. -/
theorem clear_notifications_spec (ns nl : List String) (m : Option String)
    (e : String) :
    Notif.clearNotifications ns (.ok true m) = [] ∧
    Notif.clearNotifications ns (.ok false m) = ns ∧
    Notif.clearNotifications ns (.httpError m) = ns ∧
    Notif.clearNotifications ns (.netError e) = ns ∧
    (Notif.clearNotificationsV2 nl (.ok true m)).1 = [] ∧
    (Notif.clearNotificationsV2 nl (.ok false m)).1 = nl ∧
    (Notif.clearNotificationsV2 nl (.httpError m)).1 = nl ∧
    (Notif.clearNotificationsV2 nl (.netError e)).1 = nl ∧
    App.clearNotifications ns (.parsed true) = [] ∧
    App.clearNotifications ns (.parsed false) = ns ∧
    App.clearNotifications ns .failed = ns :=
  ⟨rfl, rfl, rfl, rfl, rfl, rfl, rfl, rfl, rfl, rfl, rfl⟩

end ChatApp
